import Mathlib

/-!
Verification development for the comradarr dev-workflow tool.

Shallow embedding of the Python sources:
- `src/dev-cli/src/cr_dev/core/state.py` (session-record / credential stores),
- `src/dev-cli/src/cr_dev/commands/dev.py` (session start orchestration),
- `src/dev-cli/src/cr_dev/commands/stop.py` (session stop orchestration),
- `src/scripts/python/src/comradarr_dev/tui/services/process_manager.py`
  (background process supervisor, as an interleaved transition system).

The on-disk JSON stores are modelled at the parsed-document level: a file is
either missing, syntactically invalid JSON, or a parsed JSON value.  This
abstracts `json.dumps`/`json.loads`, which are mutually inverse on the values
the code writes.  Python dictionaries are modelled as association lists with
in-place update (matching CPython's insertion-order semantics); JSON parsing
never produces duplicate keys.  JSON floating-point numbers are not modelled
(no theorem below depends on them); `jint` covers the integers the code reads
and writes.
-/

namespace Comradarr

/-- Parsed JSON value (no floats, no arrays: neither is written by the code,
and no theorem below depends on them). -/
inductive JVal where
  | jnull : JVal
  | jbool (b : Bool) : JVal
  | jint (n : Int) : JVal
  | jstr (s : String) : JVal
  | jobj (fields : List (String × JVal)) : JVal
deriving Repr

/-- Association-list view of a Python dict produced by `json.loads`. -/
abbrev JObj := List (String × JVal)

/-- On-disk content of one of the two store files. -/
inductive FileContent where
  | missing : FileContent
  | invalid : FileContent
  | content (v : JVal) : FileContent
deriving Repr

/-- Python `d.get(k)` on a dict: first (unique) matching key. -/
def dictGet : JObj → String → Option JVal
  | [], _ => none
  | (k, v) :: rest, key => if k = key then some v else dictGet rest key

/-- Python `k in d`. -/
def dictContains (l : JObj) (k : String) : Bool :=
  (dictGet l k).isSome

/-- Python `d[k] = v`: replace in place if present, append otherwise
(CPython insertion-order semantics). -/
def dictSet (l : JObj) (k : String) (v : JVal) : JObj :=
  if (dictGet l k).isSome then
    l.map (fun p => if p.1 = k then (k, v) else p)
  else
    l ++ [(k, v)]

/-- Python `del d[k]`. -/
def dictDel (l : JObj) (k : String) : JObj :=
  l.filter (fun p => p.1 ≠ k)

/-- Python `str()` of a decoded JSON value.  Exact on the primitive values the
code reads back; for nested dicts the single-quoted rendering is a best-effort
approximation of CPython's `repr`-based formatting (no theorem below inspects
the coercion of a container). -/
def pyStr : JVal → String
  | .jnull => "None"
  | .jbool true => "True"
  | .jbool false => "False"
  | .jint n => toString n
  | .jstr s => s
  | .jobj fs => "\x7b" ++ String.intercalate ", " (pyStrFields fs) ++ "\x7d"
where
  pyStrFields : List (String × JVal) → List String
    | [] => []
    | (k, v) :: rest =>
      ("'" ++ k ++ "': " ++ pyStr v) :: pyStrFields rest

/-- Python truthiness of a decoded JSON value. -/
def pyTruthy : JVal → Bool
  | .jnull => false
  | .jbool b => b
  | .jint n => n != 0
  | .jstr s => s != ""
  | .jobj fs => !fs.isEmpty

/-- Python `int(s)` on a string: strips surrounding whitespace, then an
optional sign followed by a nonempty digit run; raises `ValueError` (modelled
as `none`) otherwise.  CPython's underscore digit-grouping is not modelled
(no theorem below depends on it). -/
def pyParseInt (s : String) : Option Int :=
  let isSpace := fun c : Char => c = ' ' || c = '\t' || c = '\n' || c = '\r'
  let cs := ((s.data.dropWhile isSpace).reverse.dropWhile isSpace).reverse
  match cs with
  | '-' :: rest => (digitsVal rest).map (fun n => -(n : Int))
  | '+' :: rest => (digitsVal rest).map (fun n => (n : Int))
  | rest => (digitsVal rest).map (fun n => (n : Int))
where
  digitsVal (cs : List Char) : Option Nat :=
    if cs ≠ [] ∧ cs.all Char.isDigit then
      some (cs.foldl (fun acc c => acc * 10 + (c.toNat - '0'.toNat)) 0)
    else none

/-- Python `int(str(v))` applied to a decoded JSON value: the identity on
ints, string parsing on strings, and `ValueError` (`none`) on everything
else (`int("True")`, `int("None")`, `int("{...}")` all raise). -/
def intOfStrOf : JVal → Option Int
  | .jint n => some n
  | .jstr s => pyParseInt s
  | _ => none

/-! ## state.py: session-record store -/

/-- Dataclass `DevState` from `cr_dev/core/state.py`. -/
structure DevState where
  version : String
  pid : Int
  port : Int
  db_name : String
  db_password : String
  db_port : Int
  secret_key : String
  admin_password : String
  persist_mode : Bool
  reconnect_mode : Bool
  log_file : Option String
  started_at : String
deriving Repr, DecidableEq

/-- `asdict(state)` followed by `json.dumps`: the JSON object written by
`save_state`, fields in dataclass order. -/
def devStateToJVal (s : DevState) : JVal :=
  .jobj
    [ ("version", .jstr s.version)
    , ("pid", .jint s.pid)
    , ("port", .jint s.port)
    , ("db_name", .jstr s.db_name)
    , ("db_password", .jstr s.db_password)
    , ("db_port", .jint s.db_port)
    , ("secret_key", .jstr s.secret_key)
    , ("admin_password", .jstr s.admin_password)
    , ("persist_mode", .jbool s.persist_mode)
    , ("reconnect_mode", .jbool s.reconnect_mode)
    , ("log_file", match s.log_file with | some t => .jstr t | none => .jnull)
    , ("started_at", .jstr s.started_at)
    ]

/-- `save_state`: whole-file rewrite of the state file. -/
def save_state (s : DevState) : FileContent :=
  .content (devStateToJVal s)

/-- `load_state`: returns `none` when the file is missing, when `json.loads`
raises, when the document is not a dict, or when one of the
`int(str(...))` field conversions raises `ValueError` (all caught by the
`except` clause in the source). -/
def load_state : FileContent → Option DevState
  | .missing => none
  | .invalid => none
  | .content v =>
    match v with
    | .jobj data => do
      let pid ← intOfStrOf ((dictGet data "pid").getD (.jint 0))
      let port ← intOfStrOf ((dictGet data "port").getD (.jint 5173))
      let db_port ← intOfStrOf ((dictGet data "db_port").getD (.jint 5432))
      some
        { version := pyStr ((dictGet data "version").getD (.jstr "1.0"))
        , pid := pid
        , port := port
        , db_name := pyStr ((dictGet data "db_name").getD (.jstr ""))
        , db_password := pyStr ((dictGet data "db_password").getD (.jstr ""))
        , db_port := db_port
        , secret_key := pyStr ((dictGet data "secret_key").getD (.jstr ""))
        , admin_password := pyStr ((dictGet data "admin_password").getD (.jstr ""))
        , persist_mode := pyTruthy ((dictGet data "persist_mode").getD (.jbool false))
        , reconnect_mode := pyTruthy ((dictGet data "reconnect_mode").getD (.jbool false))
        , log_file :=
            if pyTruthy ((dictGet data "log_file").getD .jnull) then
              some (pyStr ((dictGet data "log_file").getD .jnull))
            else none
        , started_at := pyStr ((dictGet data "started_at").getD (.jstr "")) }
    | _ => none

/-- `remove_state`: unlink if present; the file is absent either way. -/
def remove_state (_f : FileContent) : FileContent :=
  .missing

/-! ## state.py: credential store -/

/-- Dataclass `SavedCredentials` from `cr_dev/core/state.py`. -/
structure SavedCredentials where
  password : String
  secret_key : String
  admin_password : String
  saved_at : String
  last_used : Option String
deriving Repr, DecidableEq

/-- `asdict(creds)`: the JSON object stored under one database name. -/
def credsToJVal (c : SavedCredentials) : JVal :=
  .jobj
    [ ("password", .jstr c.password)
    , ("secret_key", .jstr c.secret_key)
    , ("admin_password", .jstr c.admin_password)
    , ("saved_at", .jstr c.saved_at)
    , ("last_used", match c.last_used with | some t => .jstr t | none => .jnull)
    ]

/-- `save_credentials`: read-modify-write of the whole credential map; a
missing, invalid or non-dict file is treated as the empty map. -/
def save_credentials (f : FileContent) (db_name : String) (creds : SavedCredentials) :
    FileContent :=
  let data : JObj :=
    match f with
    | .content (.jobj fields) => fields
    | _ => []
  .content (.jobj (dictSet data db_name (credsToJVal creds)))

/-- Lookup of the raw stored entry for a database name (the observable
content of the credential map). -/
def credLookup (f : FileContent) (db_name : String) : Option JVal :=
  match f with
  | .content (.jobj data) => dictGet data db_name
  | _ => none

/-- `load_credentials`: returns the entry (with `last_used` refreshed to
`now` and the refreshed entry re-persisted) when the file parses to a dict
containing a dict under `db_name`; otherwise returns `none` and leaves the
file untouched.  Result: (returned entry, file content after the call). -/
def load_credentials (now : String) (f : FileContent) (db_name : String) :
    Option SavedCredentials × FileContent :=
  match f with
  | .missing => (none, f)
  | .invalid => (none, f)
  | .content v =>
    match v with
    | .jobj data =>
      match dictGet data db_name with
      | some (.jobj credData) =>
        let lastUsedRaw := (dictGet credData "last_used").getD .jnull
        let creds : SavedCredentials :=
          { password := pyStr ((dictGet credData "password").getD (.jstr ""))
          , secret_key := pyStr ((dictGet credData "secret_key").getD (.jstr ""))
          , admin_password := pyStr ((dictGet credData "admin_password").getD (.jstr ""))
          , saved_at := pyStr ((dictGet credData "saved_at").getD (.jstr ""))
          , last_used := if pyTruthy lastUsedRaw then some (pyStr lastUsedRaw) else none }
        let updated : SavedCredentials :=
          { password := creds.password
          , secret_key := creds.secret_key
          , admin_password := creds.admin_password
          , saved_at := creds.saved_at
          , last_used := some now }
        (some updated, save_credentials f db_name updated)
      | some _ => (none, f)
      | none => (none, f)
    | _ => (none, f)

/-- `remove_credentials`: rewrites the map without the entry when present;
leaves a missing, invalid or non-dict file untouched. -/
def remove_credentials (f : FileContent) (db_name : String) : FileContent :=
  match f with
  | .missing => f
  | .invalid => f
  | .content v =>
    match v with
    | .jobj data =>
      if dictContains data db_name then .content (.jobj (dictDel data db_name))
      else f
    | _ => f

/-! ## Dictionary lemmas -/

theorem dictGet_map_set_self (l : JObj) (k : String) (v : JVal) :
    dictGet (l.map (fun p => if p.1 = k then (k, v) else p)) k =
      (dictGet l k).map (fun _ => v) := by
  induction l with
  | nil => rfl
  | cons hd tl ih =>
    obtain ⟨a, b⟩ := hd
    rw [List.map_cons]
    by_cases hak : a = k
    · subst hak
      rw [if_pos rfl]
      simp [dictGet]
    · rw [if_neg hak]
      simp [dictGet, hak, ih]

theorem dictGet_map_set_ne (l : JObj) (k k' : String) (v : JVal) (h : k' ≠ k) :
    dictGet (l.map (fun p => if p.1 = k then (k, v) else p)) k' = dictGet l k' := by
  induction l with
  | nil => rfl
  | cons hd tl ih =>
    obtain ⟨a, b⟩ := hd
    rw [List.map_cons]
    by_cases hak : a = k
    · subst hak
      rw [if_pos rfl]
      simp [dictGet, Ne.symm h, ih]
    · rw [if_neg hak]
      by_cases hak' : a = k'
      · subst hak'
        simp [dictGet]
      · simp [dictGet, hak', ih]

theorem dictGet_append_single_ne (l : JObj) (k k' : String) (v : JVal) (h : k' ≠ k) :
    dictGet (l ++ [(k, v)]) k' = dictGet l k' := by
  induction l with
  | nil => simp [dictGet, Ne.symm h]
  | cons hd tl ih =>
    obtain ⟨a, b⟩ := hd
    by_cases hak' : a = k'
    · subst hak'
      simp [dictGet]
    · simp [dictGet, hak', ih]

theorem dictGet_dictSet_self (l : JObj) (k : String) (v : JVal) :
    dictGet (dictSet l k v) k = some v := by
  unfold dictSet
  by_cases hmem : (dictGet l k).isSome
  · rw [if_pos hmem, dictGet_map_set_self]
    obtain ⟨w, hw⟩ := Option.isSome_iff_exists.mp hmem
    simp [hw]
  · rw [if_neg hmem]
    rw [Option.not_isSome_iff_eq_none] at hmem
    induction l with
    | nil => simp [dictGet]
    | cons hd tl ih =>
      obtain ⟨a, b⟩ := hd
      by_cases hak : a = k
      · simp [dictGet, hak] at hmem
      · simp [dictGet, hak] at hmem ⊢
        exact ih hmem

theorem dictGet_dictSet_ne (l : JObj) (k k' : String) (v : JVal) (h : k' ≠ k) :
    dictGet (dictSet l k v) k' = dictGet l k' := by
  unfold dictSet
  by_cases hmem : (dictGet l k).isSome
  · rw [if_pos hmem, dictGet_map_set_ne _ _ _ _ h]
  · rw [if_neg hmem, dictGet_append_single_ne _ _ _ _ h]

theorem dictGet_dictDel_ne (l : JObj) (k k' : String) (h : k' ≠ k) :
    dictGet (dictDel l k) k' = dictGet l k' := by
  induction l with
  | nil => rfl
  | cons hd tl ih =>
    obtain ⟨a, b⟩ := hd
    by_cases hak : a = k
    · subst hak
      simp [dictDel, dictGet, Ne.symm h] at ih ⊢
      exact ih
    · by_cases hak' : a = k'
      · subst hak'
        simp [dictDel, dictGet, hak]
      · simp [dictDel, dictGet, hak, hak'] at ih ⊢
        exact ih

theorem credLookup_save_credentials_ne (f : FileContent) (x y : String)
    (e : SavedCredentials) (h : y ≠ x) :
    credLookup (save_credentials f x e) y = credLookup f y := by
  cases f with
  | missing => simp [save_credentials, credLookup, dictSet, dictGet, Ne.symm h]
  | invalid => simp [save_credentials, credLookup, dictSet, dictGet, Ne.symm h]
  | content v =>
    cases v with
    | jobj data => simp [save_credentials, credLookup, dictGet_dictSet_ne _ _ _ _ h]
    | jnull => simp [save_credentials, credLookup, dictSet, dictGet, Ne.symm h]
    | jbool b => simp [save_credentials, credLookup, dictSet, dictGet, Ne.symm h]
    | jint n => simp [save_credentials, credLookup, dictSet, dictGet, Ne.symm h]
    | jstr s => simp [save_credentials, credLookup, dictSet, dictGet, Ne.symm h]

theorem credLookup_remove_credentials_ne (f : FileContent) (x y : String) (h : y ≠ x) :
    credLookup (remove_credentials f x) y = credLookup f y := by
  cases f with
  | missing => rfl
  | invalid => rfl
  | content v =>
    cases v with
    | jobj data =>
      simp only [remove_credentials]
      by_cases hc : dictContains data x
      · simp [hc, credLookup, dictGet_dictDel_ne _ _ _ h]
      · simp [hc]
    | jnull => rfl
    | jbool b => rfl
    | jint n => rfl
    | jstr s => rfl

/-- When the lookup misses (file missing, invalid, non-dict, name absent, or
entry not a dict), `load_credentials` returns `none` and writes nothing. -/
theorem load_credentials_none_frame (now : String) (f : FileContent) (name : String)
    (h : (load_credentials now f name).1 = none) :
    (load_credentials now f name).2 = f := by
  cases f with
  | missing => rfl
  | invalid => rfl
  | content v =>
    cases v with
    | jobj data =>
      simp only [load_credentials] at h ⊢
      cases hg : dictGet data name with
      | none => simp [hg]
      | some w =>
        cases w with
        | jobj credData => simp [hg] at h
        | jnull => simp [hg]
        | jbool b => simp [hg]
        | jint n => simp [hg]
        | jstr s => simp [hg]
    | jnull => rfl
    | jbool b => rfl
    | jint n => rfl
    | jstr s => rfl

/-- A name with no stored entry loads as `none` (and hence, by
`load_credentials_none_frame`, without a write). -/
theorem load_credentials_of_lookup_none (now : String) (f : FileContent) (name : String)
    (h : credLookup f name = none) :
    (load_credentials now f name).1 = none ∧ (load_credentials now f name).2 = f := by
  have h1 : (load_credentials now f name).1 = none := by
    cases f with
    | missing => rfl
    | invalid => rfl
    | content v =>
      cases v with
      | jobj data =>
        simp only [credLookup] at h
        simp [load_credentials, h]
      | jnull => rfl
      | jbool b => rfl
      | jint n => rfl
      | jstr s => rfl
  exact ⟨h1, load_credentials_none_frame now f name h1⟩

/-! ## dev.py: database-name validation -/

/-- Character class `[a-zA-Z_]` (ASCII, as in the Python regex). -/
def isNameStartChar (c : Char) : Bool :=
  c.isAlpha || c == '_'

/-- Character class `[a-zA-Z0-9_]`. -/
def isNameChar (c : Char) : Bool :=
  isNameStartChar c || c.isDigit

/-- Full match of `[a-zA-Z_][a-zA-Z0-9_]*` against a character list. -/
def matchesDbPattern : List Char → Bool
  | [] => false
  | c :: rest => isNameStartChar c && rest.all isNameChar

/-- Python `re.match` with pattern `^[a-zA-Z_][a-zA-Z0-9_]*$`: outside
MULTILINE mode, `$` matches at the end of the string or just before a single
trailing newline, so a match succeeds on the whole string or on the whole
string minus one final newline. -/
def pyMatchAnchored (cs : List Char) : Bool :=
  matchesDbPattern cs || ((cs.getLast? == some '\n') && matchesDbPattern cs.dropLast)

/-- `validate_db_name` from `cr_dev/commands/dev.py`: length bound checked
first, then the anchored regex match. -/
def validate_db_name (name : String) : Bool :=
  if name.length > 63 then false else pyMatchAnchored name.data

/-- The specification's reading of the name rule: the whole string matches
`^[A-Za-z_][A-Za-z0-9_]*$` (read as a plain full-string match) and its
length is at most 63.  Spec-side definition, to be compared with the
source-derived `validate_db_name`. -/
def specValidDbName (s : String) : Bool :=
  decide (s.length ≤ 63) && matchesDbPattern s.data

/-! ## Claims C5, C6, C7, C8, C10 -/

/-- C5 (amended): for every session record whose `log_file` field is not the
empty string, `save_state` followed by `load_state` returns the record
unchanged; and `load_state` after `remove_state` returns `none`.  (The
record with `log_file = Some ""` is the one shape the round trip does not
preserve: the truthiness test on read turns it into `None`.) -/
theorem C5_roundtrip_amended (s : DevState) (f : FileContent)
    (h : s.log_file ≠ some "") :
    load_state (save_state s) = some s ∧ load_state (remove_state f) = none := by
  refine ⟨?_, rfl⟩
  obtain ⟨ver, pid, port, dbn, dbp, dbport, sk, ap, pm, rm, lf, sa⟩ := s
  cases lf with
  | none => rfl
  | some t =>
    have ht : t ≠ "" := fun ht' => h (by simp [ht'])
    have hb : (t != "") = true := bne_iff_ne.mpr ht
    have hred : load_state (save_state
        ⟨ver, pid, port, dbn, dbp, dbport, sk, ap, pm, rm, some t, sa⟩) =
        some ⟨ver, pid, port, dbn, dbp, dbport, sk, ap, pm, rm,
          if (t != "") = true then some t else none, sa⟩ := rfl
    rw [hred, hb]
    simp

/-- C5 witness: the amended round trip holds at a concrete record. -/
theorem C5_roundtrip_witness :
    ({ version := "1.0", pid := 42, port := 5173, db_name := "mydb",
       db_password := "pw", db_port := 5432, secret_key := "sk",
       admin_password := "ap", persist_mode := true, reconnect_mode := false,
       log_file := some "log.txt", started_at := "2026-01-01" } : DevState).log_file
        ≠ some "" ∧
      (load_state (save_state
        { version := "1.0", pid := 42, port := 5173, db_name := "mydb",
          db_password := "pw", db_port := 5432, secret_key := "sk",
          admin_password := "ap", persist_mode := true, reconnect_mode := false,
          log_file := some "log.txt", started_at := "2026-01-01" }) = some
        { version := "1.0", pid := 42, port := 5173, db_name := "mydb",
          db_password := "pw", db_port := 5432, secret_key := "sk",
          admin_password := "ap", persist_mode := true, reconnect_mode := false,
          log_file := some "log.txt", started_at := "2026-01-01" } ∧
        load_state (remove_state .missing) = none) :=
  ⟨by decide, C5_roundtrip_amended _ .missing (by decide)⟩

/-- C5 counterexample: the claim "save then load returns a record equal to r
for every well-formed record" fails at the record whose `log_file` is the
empty string: it loads back with `log_file = None`. -/
theorem C5_roundtrip_counterexample :
    load_state (save_state
      { version := "1.0", pid := 0, port := 5173, db_name := "", db_password := "",
        db_port := 5432, secret_key := "", admin_password := "",
        persist_mode := false, reconnect_mode := false, log_file := some "",
        started_at := "t0" }) ≠ some
      { version := "1.0", pid := 0, port := 5173, db_name := "", db_password := "",
        db_port := 5432, secret_key := "", admin_password := "",
        persist_mode := false, reconnect_mode := false, log_file := some "",
        started_at := "t0" } := by
  decide

/-- Discriminator for JSON objects. -/
def isJObjB : JVal → Bool
  | .jobj _ => true
  | _ => false

/-- C6 (amended): a store file that is missing, not valid JSON, or not a JSON
object degrades to absent on read — `load_state` returns `none`, and
`load_credentials` returns `none` without rewriting the file — and neither
raises.  (Wrong-typed fields inside a well-formed object are, contrary to
the original claim, coerced rather than rejected whenever Python's
`int`/`str`/`bool` conversions succeed.) -/
theorem C6_malformed_absent_amended (f : FileContent) (name now : String)
    (h : f = .missing ∨ f = .invalid ∨ ∃ v, f = .content v ∧ isJObjB v = false) :
    load_state f = none ∧ (load_credentials now f name).1 = none ∧
      (load_credentials now f name).2 = f := by
  rcases h with h | h | ⟨v, hv, hobj⟩
  · subst h; exact ⟨rfl, rfl, rfl⟩
  · subst h; exact ⟨rfl, rfl, rfl⟩
  · subst hv
    cases v with
    | jobj data => simp [isJObjB] at hobj
    | jnull => exact ⟨rfl, rfl, rfl⟩
    | jbool b => exact ⟨rfl, rfl, rfl⟩
    | jint n => exact ⟨rfl, rfl, rfl⟩
    | jstr s => exact ⟨rfl, rfl, rfl⟩

/-- C6 witness: the amended degradation holds at a concrete invalid file. -/
theorem C6_malformed_absent_witness :
    (FileContent.invalid = .missing ∨ FileContent.invalid = .invalid ∨
      ∃ v, FileContent.invalid = .content v ∧ isJObjB v = false) ∧
      (load_state .invalid = none ∧
        (load_credentials "now" .invalid "mydb").1 = none ∧
        (load_credentials "now" .invalid "mydb").2 = .invalid) :=
  ⟨Or.inr (Or.inl rfl), C6_malformed_absent_amended .invalid "mydb" "now"
    (Or.inr (Or.inl rfl))⟩

/-- C6 counterexample: a state file whose `pid` field has the wrong type (a
string) is not rejected — `int(str("123"))` succeeds, so `load_state`
returns a record instead of absent, refuting the claim that wrong-typed
fields degrade to `None`. -/
theorem C6_wrong_type_counterexample :
    load_state (.content (.jobj [("pid", .jstr "123")])) = some
      { version := "1.0", pid := 123, port := 5173, db_name := "", db_password := "",
        db_port := 5432, secret_key := "", admin_password := "",
        persist_mode := false, reconnect_mode := false, log_file := none,
        started_at := "" } ∧
      load_state (.content (.jobj [("pid", .jstr "123")])) ≠ none := by
  refine ⟨by decide, by decide⟩

/-- C7 (amended): `validate_db_name` accepts exactly the strings of length at
most 63 that match `[A-Za-z_][A-Za-z0-9_]*` — or that are such a match
followed by one trailing newline, which Python's `$` anchor tolerates. -/
theorem C7_validate_amended (s : String) :
    validate_db_name s = true ↔
      s.length ≤ 63 ∧
        (matchesDbPattern s.data = true ∨
          ∃ t : String, s = t ++ "\n" ∧ matchesDbPattern t.data = true) := by
  unfold validate_db_name pyMatchAnchored
  by_cases hlen : s.length > 63
  · rw [if_pos hlen]
    constructor
    · intro hfalse
      exact absurd hfalse (by simp)
    · rintro ⟨hle, -⟩
      exact absurd hle (Nat.not_le.mpr hlen)
  · have hle : s.length ≤ 63 := Nat.not_lt.mp hlen
    rw [if_neg hlen, Bool.or_eq_true, Bool.and_eq_true, beq_iff_eq]
    constructor
    · intro hmatch
      refine ⟨hle, ?_⟩
      rcases hmatch with hm | ⟨hlast, hpat⟩
      · exact Or.inl hm
      · refine Or.inr ⟨⟨s.data.dropLast⟩, ?_, hpat⟩
        have hne : s.data ≠ [] := by
          intro h0
          rw [h0] at hlast
          simp at hlast
        apply String.ext
        show s.data = s.data.dropLast ++ ['\n']
        have hlast' : s.data.getLast hne = '\n' := by
          rw [List.getLast?_eq_getLast s.data hne] at hlast
          exact Option.some.inj hlast
        conv_lhs => rw [← List.dropLast_append_getLast hne]
        rw [hlast']
    · rintro ⟨-, hm | ⟨t, rfl, hpat⟩⟩
      · exact Or.inl hm
      · refine Or.inr ?_
        have hdata : (t ++ "\n").data = t.data ++ ['\n'] := rfl
        refine ⟨?_, ?_⟩
        · rw [hdata]
          exact List.getLast?_concat _
        · rw [hdata, List.dropLast_concat]
          exact hpat

/-- C7 counterexample: `"abc\n"` is accepted by `validate_db_name` although
it does not match `^[A-Za-z_][A-Za-z0-9_]*$` read as a plain full-string
pattern (it contains a newline): Python's `$` matches just before a single
trailing newline. -/
theorem C7_validate_counterexample :
    validate_db_name "abc\n" = true ∧ specValidDbName "abc\n" = false := by
  decide

/-- C8 (confirmed): loading a credential entry stored with `last_used = None`
returns the entry with `last_used` refreshed to the read time, carries
`password`, `secret_key`, `admin_password` and `saved_at` forward unchanged,
and re-persists the refreshed entry under the same name. -/
theorem C8_load_refreshes_last_used (f : FileContent) (name now : String)
    (e : SavedCredentials) (h : e.last_used = none) :
    (load_credentials now (save_credentials f name e) name).1 =
        some { e with last_used := some now } ∧
      credLookup (load_credentials now (save_credentials f name e) name).2 name =
        some (credsToJVal { e with last_used := some now }) := by
  obtain ⟨pw, sk2, ap2, sa2, lu⟩ := e
  have h' : lu = none := h
  subst h'
  constructor
  · simp only [save_credentials, load_credentials]
    rw [dictGet_dictSet_self]
    simp [credsToJVal, dictGet, pyStr, pyTruthy]
  · simp only [save_credentials, load_credentials]
    rw [dictGet_dictSet_self]
    simp [credsToJVal, dictGet, pyStr, pyTruthy, credLookup, save_credentials,
      dictGet_dictSet_self]

/-- C8 witness: the refresh behaviour at a concrete store and entry. -/
theorem C8_load_refreshes_witness :
    ({ password := "pw", secret_key := "sk", admin_password := "ap",
       saved_at := "t1", last_used := none } : SavedCredentials).last_used = none ∧
      ((load_credentials "t2" (save_credentials .missing "mydb"
          { password := "pw", secret_key := "sk", admin_password := "ap",
            saved_at := "t1", last_used := none }) "mydb").1 =
        some { password := "pw", secret_key := "sk", admin_password := "ap",
               saved_at := "t1", last_used := some "t2" } ∧
        credLookup (load_credentials "t2" (save_credentials .missing "mydb"
          { password := "pw", secret_key := "sk", admin_password := "ap",
            saved_at := "t1", last_used := none }) "mydb").2 "mydb" =
        some (credsToJVal
          { password := "pw", secret_key := "sk", admin_password := "ap",
            saved_at := "t1", last_used := some "t2" })) :=
  ⟨rfl, C8_load_refreshes_last_used .missing "mydb" "t2" _ rfl⟩

/-! ## dev.py / stop.py orchestration model -/

/-- Command-line arguments of `dev_command` (dev.py). -/
structure DevArgs where
  persist : Bool
  db_name : Option String
  reconnect : Option String
  admin_password : Option String
  port : Int
  db_port : Int
  skip_auth : Bool

/-- Observed outcomes of the external collaborators during one `dev_command`
invocation: psql/service-control exit statuses, the migration and seed tools,
generated secrets, the clock, the interactive confirmation, and the PIDs
involved.  Each field records what the Python code would observe from the
corresponding call. -/
structure DevEnv where
  postgresRunning : Bool
  startPostgresOk : Bool
  portInUse : Bool
  createUserOk : Bool
  createDbOk : Bool
  migrationsOk : Bool
  createAdminOk : Bool
  confirmReconnect : Bool
  genSuffix : String
  genDbPassword : String
  genAdminPassword : String
  genSecretKey : String
  now : String
  myPid : Int
  childPid : Int

/-- External durable state the orchestration reads and writes: the two store
files and the databases/roles present in the engine (unique names, so
membership in a list models existence). -/
structure World where
  stateFile : FileContent
  credsFile : FileContent
  databases : List String
  roles : List String
deriving Repr

/-- Dataclass `DevConfig` from `cr_dev/core/config.py` (the fields
`dev_command` uses). -/
structure DevConfig where
  port : Int
  db_port : Int
  db_name : Option String
  db_password : String
  admin_password : String
  secret_key : String
  persist : Bool
  reconnect : Bool
  skip_auth : Bool

/-- `config.generate_db_name()`: prefix plus `secrets.token_hex(4)`. -/
def generate_db_name (env : DevEnv) : String :=
  "comradarr_dev_" ++ env.genSuffix

/-- Python truthiness of a `str | None` value. -/
def pyTruthyOptStr : Option String → Bool
  | none => false
  | some s => s != ""

/-- `_create_database` from dev.py: create-or-alter role (idempotent), the
`SELECT 1 FROM pg_database` existence probe (assumed accurate),
create-database-if-absent, best-effort grants.  Returns the updated world or
`none` when a checked psql call fails. -/
def create_database (env : DevEnv) (name : String) (w : World) : Option World :=
  if !env.createUserOk then none
  else
    let roles' := if name ∈ w.roles then w.roles else w.roles ++ [name]
    let dbExists := name ∈ w.databases
    if !dbExists && !env.createDbOk then none
    else
      let dbs' := if dbExists then w.databases else w.databases ++ [name]
      some { w with roles := roles', databases := dbs' }

/-- `drop_database` from dev.py: `DROP DATABASE IF EXISTS` plus
`DROP ROLE IF EXISTS` (engine names are unique, so removal is a filter). -/
def drop_database (name : String) (w : World) : World :=
  { w with databases := w.databases.filter (fun d => d ≠ name),
           roles := w.roles.filter (fun r => r ≠ name) }

/-- Information the `cleanup()` closure of `dev_command` captures. -/
structure RunInfo where
  db_name : String
  persist : Bool
  reconnect : Bool
  db_port : Int

/-- Result of `dev_command`: abort with an exit code, or a running session. -/
inductive DevOutcome where
  | exit (code : Int) : DevOutcome
  | running (info : RunInfo) : DevOutcome

/-- Lines 559-651 of dev.py, after the mode is resolved and the database
provisioned: run migrations (with the ephemeral-rollback drop on failure),
seed the admin user (warning only), persist credentials iff persist or
reconnect, persist the session record, spawn the child and back-fill its
PID into the record. -/
def start_after_provision (env : DevEnv) (config : DevConfig) (w : World) :
    World × DevOutcome :=
  if !config.reconnect && !env.migrationsOk then
    let w' :=
      if !config.persist && pyTruthyOptStr config.db_name then
        drop_database (config.db_name.getD "") w
      else w
    (w', .exit 1)
  else
    let dbn := config.db_name.getD ""
    let w1 :=
      if config.persist || config.reconnect then
        let entry : SavedCredentials :=
          { password := config.db_password, secret_key := config.secret_key,
            admin_password := config.admin_password, saved_at := env.now,
            last_used := none }
        { w with credsFile := save_credentials w.credsFile dbn entry }
      else w
    let st : DevState :=
      { version := "1.0", pid := env.myPid, port := config.port, db_name := dbn,
        db_password := config.db_password, db_port := config.db_port,
        secret_key := config.secret_key, admin_password := config.admin_password,
        persist_mode := config.persist, reconnect_mode := config.reconnect,
        log_file := none, started_at := env.now }
    let w2 := { w1 with stateFile := save_state st }
    let w3 := { w2 with stateFile := save_state { st with pid := env.childPid } }
    (w3, .running ⟨dbn, config.persist, config.reconnect, config.db_port⟩)

/-- `dev_command` from dev.py: engine-liveness and port checks, mode
resolution (reconnect / named / generated), provisioning, then
`start_after_provision`. -/
def dev_command (args : DevArgs) (env : DevEnv) (w0 : World) : World × DevOutcome :=
  if !env.postgresRunning && !env.startPostgresOk then (w0, .exit 1)
  else if env.portInUse then (w0, .exit 1)
  else
    let config0 : DevConfig :=
      { port := args.port, db_port := args.db_port, db_name := none,
        db_password := env.genDbPassword,
        admin_password :=
          if pyTruthyOptStr args.admin_password then args.admin_password.getD ""
          else env.genAdminPassword,
        secret_key := env.genSecretKey,
        persist := false, reconnect := false, skip_auth := args.skip_auth }
    if pyTruthyOptStr args.reconnect then
      let rname := args.reconnect.getD ""
      let lc := load_credentials env.now w0.credsFile rname
      let w1 := { w0 with credsFile := lc.2 }
      match lc.1 with
      | none => (w1, .exit 1)
      | some creds =>
        let cfg : DevConfig :=
          { config0 with
            db_name := some rname
            db_password := creds.password
            secret_key := creds.secret_key
            admin_password := creds.admin_password
            reconnect := true }
        start_after_provision env cfg w1
    else if pyTruthyOptStr args.db_name then
      let n := args.db_name.getD ""
      if !validate_db_name n then (w0, .exit 1)
      else
        let lc := load_credentials env.now w0.credsFile n
        let w1 := { w0 with credsFile := lc.2 }
        match lc.1 with
        | some ec =>
          if !env.confirmReconnect then (w1, .exit 0)
          else
            let cfg : DevConfig :=
              { config0 with
                db_name := some n
                persist := args.persist
                db_password := ec.password
                secret_key := ec.secret_key
                admin_password := ec.admin_password
                reconnect := true }
            start_after_provision env cfg w1
        | none =>
          match create_database env n w1 with
          | none => (w1, .exit 1)
          | some w2 =>
            let cfg : DevConfig := { config0 with db_name := some n, persist := args.persist }
            start_after_provision env cfg w2
    else
      let n := generate_db_name env
      match create_database env n w0 with
      | none => (w0, .exit 1)
      | some w1 =>
        let cfg : DevConfig := { config0 with db_name := some n, persist := args.persist }
        start_after_provision env cfg w1

/-- The `cleanup()` closure registered with `atexit` in `dev_command`: remove
the session record, then drop the database iff the session is neither
persist nor reconnect (the intentional CLI stop). -/
def dev_cleanup (info : RunInfo) (w : World) : World :=
  let w1 := { w with stateFile := remove_state w.stateFile }
  if !info.persist && !info.reconnect then drop_database info.db_name w1 else w1

/-- Observed outcomes of the external calls made by `stop_command`
(stop.py). -/
structure StopEnv where
  pidAlive : Int → Bool
  killOk : Bool
  portPid : Option Int
  confirmKill : Bool
  confirmRemove : Bool

/-- Result of `stop_command`: final world, exit code (0 = normal return,
1 = `typer.Exit(1)`), and the PIDs whose process trees were signalled via
`kill_process_tree`.  (`_drop_database`'s terminate-connections step acts
inside the engine and is not a process signal.) -/
structure StopResult where
  world : World
  exitCode : Int
  killedPids : List Int

/-- Orphan-sweep helper in the no-state `--force-cleanup` branch: drop the
database and role, then remove its credential entry. -/
def dropAndForget (d : String) (w : World) : World :=
  let w' := drop_database d w
  { w' with credsFile := remove_credentials w'.credsFile d }

/-- `stop_command` from stop.py: status-only reporting, the no-record branch
(orphan port process, optional orphan-database sweep), the stale-PID
self-healing branch, and the live-process stop branch. -/
def stop_command (force_cleanup status_only : Bool) (env : StopEnv) (w0 : World) :
    StopResult :=
  let state? := load_state w0.stateFile
  if status_only then ⟨w0, 0, []⟩
  else
    match state? with
    | none =>
      let killed : List Int :=
        match env.portPid with
        | some pid => if env.confirmKill then [pid] else []
        | none => []
      if force_cleanup then
        let orphans := w0.databases.filter (fun d => d.startsWith "comradarr_dev_")
        ⟨orphans.foldl (fun w d => dropAndForget d w) w0, 0, killed⟩
      else ⟨w0, 0, killed⟩
    | some st =>
      if !env.pidAlive st.pid then
        let w1 := { w0 with stateFile := remove_state w0.stateFile }
        if !st.persist_mode && !st.reconnect_mode then
          ⟨drop_database st.db_name w1, 0, []⟩
        else if force_cleanup then
          ⟨dropAndForget st.db_name w1, 0, []⟩
        else ⟨w1, 0, []⟩
      else
        if !env.killOk then ⟨w0, 1, [st.pid]⟩
        else
          let w1 := { w0 with stateFile := remove_state w0.stateFile }
          if !st.persist_mode && !st.reconnect_mode then
            ⟨drop_database st.db_name w1, 0, [st.pid]⟩
          else if force_cleanup then
            if env.confirmRemove then ⟨dropAndForget st.db_name w1, 0, [st.pid]⟩
            else ⟨w1, 0, [st.pid]⟩
          else ⟨w1, 0, [st.pid]⟩

/-! ## Orchestration lemmas -/

theorem drop_database_stateFile (n : String) (w : World) :
    (drop_database n w).stateFile = w.stateFile := rfl

theorem drop_database_credsFile (n : String) (w : World) :
    (drop_database n w).credsFile = w.credsFile := rfl

theorem drop_database_not_mem (n : String) (w : World) :
    n ∉ (drop_database n w).databases := by
  simp [drop_database]

theorem dropAndForget_stateFile (d : String) (w : World) :
    (dropAndForget d w).stateFile = w.stateFile := rfl

theorem create_database_frame (env : DevEnv) (n : String) (w w' : World)
    (h : create_database env n w = some w') :
    w'.stateFile = w.stateFile ∧ w'.credsFile = w.credsFile := by
  unfold create_database at h
  simp only [] at h
  split at h
  · exact absurd h (by simp)
  · split at h
    · exact absurd h (by simp)
    · injection h with h'
      subst h'
      exact ⟨rfl, rfl⟩

theorem validate_db_name_ne_empty (n : String) (h : validate_db_name n = true) :
    n ≠ "" := by
  intro h0
  rw [h0] at h
  exact absurd h (by decide)

theorem generate_db_name_ne_empty (env : DevEnv) : generate_db_name env ≠ "" := by
  intro h
  have hlen := congrArg String.length h
  rw [generate_db_name, String.length_append] at hlen
  have h14 : ("comradarr_dev_" : String).length = 14 := rfl
  have h0 : ("" : String).length = 0 := rfl
  rw [h14, h0] at hlen
  omega

/-- The database name a non-reconnect `dev_command` invocation resolves to:
the explicitly given name, or the generated `comradarr_dev_<hex>` name. -/
def devChosenName (args : DevArgs) (env : DevEnv) : String :=
  if pyTruthyOptStr args.db_name then args.db_name.getD "" else generate_db_name env

/-! ## Claims C2, C4 -/

set_option maxRecDepth 8000 in
/-- C2 (confirmed): when migrations fail during a session start that is
neither persistent nor reconnect (engine up, port free, provisioning
succeeded), `dev_command` aborts with exit code 1 after dropping the
database it created, and leaves both the session-record store and the
credential store exactly as they were — no Credential Entry and no Session
Record is persisted by the failed start. -/
theorem C2_migration_failure_rollback (args : DevArgs) (env : DevEnv) (w : World)
    (hrec : pyTruthyOptStr args.reconnect = false)
    (hper : args.persist = false)
    (hpg : env.postgresRunning = true)
    (hport : env.portInUse = false)
    (huser : env.createUserOk = true)
    (hcdb : env.createDbOk = true)
    (hmig : env.migrationsOk = false)
    (hname : ∀ n, args.db_name = some n →
      validate_db_name n = true ∧ credLookup w.credsFile n = none) :
    (dev_command args env w).2 = .exit 1 ∧
      (dev_command args env w).1.stateFile = w.stateFile ∧
      (dev_command args env w).1.credsFile = w.credsFile ∧
      devChosenName args env ∉ (dev_command args env w).1.databases := by
  by_cases hdbt : pyTruthyOptStr args.db_name = true
  · cases hdb : args.db_name with
    | none => rw [hdb] at hdbt; exact absurd hdbt (by decide)
    | some n =>
      obtain ⟨hval, hlook⟩ := hname n hdb
      have hne : n ≠ "" := validate_db_name_ne_empty n hval
      have hlc := load_credentials_of_lookup_none env.now w.credsFile n hlook
      have hnt : pyTruthyOptStr (some n) = true := by
        simp [pyTruthyOptStr, hne]
      rw [hdb] at hdbt
      simp [dev_command, create_database, start_after_provision, drop_database,
        devChosenName, hpg, hport, hrec, hdb, hdbt, hval, hlc.1, hlc.2, hnt,
        huser, hcdb, hmig, hper]
  · have hgt : pyTruthyOptStr (some (generate_db_name env)) = true := by
      simp [pyTruthyOptStr, generate_db_name_ne_empty env]
    simp [dev_command, create_database, start_after_provision, drop_database,
      devChosenName, hpg, hport, hrec, hdbt, hgt, huser, hcdb, hmig, hper]

/-- Concrete scenario for the C2 witness: migrations fail for a fresh
ephemeral session named `mydb`. -/
def c2Args : DevArgs :=
  { persist := false, db_name := some "mydb", reconnect := none,
    admin_password := none, port := 5173, db_port := 5432, skip_auth := false }

def c2Env : DevEnv :=
  { postgresRunning := true, startPostgresOk := true, portInUse := false,
    createUserOk := true, createDbOk := true, migrationsOk := false,
    createAdminOk := true, confirmReconnect := true, genSuffix := "ab12cd34",
    genDbPassword := "pw", genAdminPassword := "ap", genSecretKey := "sk",
    now := "t0", myPid := 100, childPid := 101 }

def c2World : World :=
  { stateFile := .missing, credsFile := .missing, databases := [], roles := [] }

/-- C2 witness: the rollback at the concrete failing-migration scenario. -/
theorem C2_migration_failure_witness :
    (pyTruthyOptStr c2Args.reconnect = false ∧ c2Args.persist = false ∧
      c2Env.postgresRunning = true ∧ c2Env.portInUse = false ∧
      c2Env.createUserOk = true ∧ c2Env.createDbOk = true ∧
      c2Env.migrationsOk = false) ∧
      ((dev_command c2Args c2Env c2World).2 = .exit 1 ∧
        (dev_command c2Args c2Env c2World).1.stateFile = c2World.stateFile ∧
        (dev_command c2Args c2Env c2World).1.credsFile = c2World.credsFile ∧
        devChosenName c2Args c2Env ∉ (dev_command c2Args c2Env c2World).1.databases) :=
  ⟨⟨rfl, rfl, rfl, rfl, rfl, rfl, rfl⟩,
    C2_migration_failure_rollback c2Args c2Env c2World rfl rfl rfl rfl rfl rfl rfl
      (by intro n hn; cases hn; exact ⟨by decide, rfl⟩)⟩

/-- C4 (confirmed): when the persisted Session Record's PID is not alive,
`stop_command` signals no process tree, removes the Session Record, returns
normally, and — when the record is ephemeral (neither persist nor
reconnect) — drops the database the record references. -/
theorem C4_stale_record_selfheal (fc : Bool) (env : StopEnv) (w : World)
    (r : DevState)
    (hload : load_state w.stateFile = some r)
    (hdead : env.pidAlive r.pid = false) :
    (stop_command fc false env w).killedPids = [] ∧
      (stop_command fc false env w).world.stateFile = .missing ∧
      (stop_command fc false env w).exitCode = 0 ∧
      (r.persist_mode = false → r.reconnect_mode = false →
        r.db_name ∉ (stop_command fc false env w).world.databases) := by
  by_cases hpm : r.persist_mode <;> by_cases hrm : r.reconnect_mode <;>
    by_cases hfc : fc <;>
      simp [stop_command, hload, hdead, hpm, hrm, hfc, drop_database, dropAndForget,
        remove_state]

theorem credLookup_save_credentials_self (f : FileContent) (n : String)
    (e : SavedCredentials) :
    credLookup (save_credentials f n e) n = some (credsToJVal e) := by
  simp [save_credentials, credLookup, dictGet_dictSet_self]

theorem dev_cleanup_credsFile (info : RunInfo) (w : World) :
    (dev_cleanup info w).credsFile = w.credsFile := by
  unfold dev_cleanup
  split <;> rfl

/-- Shape of a successful `start_after_provision`: the running info carries
the resolved mode, a Credential Entry is stored iff the mode is persist or
reconnect, and otherwise the credential store is untouched. -/
theorem start_after_provision_running (env : DevEnv) (config : DevConfig)
    (w : World) (info : RunInfo)
    (h : (start_after_provision env config w).2 = .running info) :
    info.persist = config.persist ∧ info.reconnect = config.reconnect ∧
      ((config.persist = true ∨ config.reconnect = true) →
        (credLookup (start_after_provision env config w).1.credsFile
          info.db_name).isSome = true) ∧
      (config.persist = false → config.reconnect = false →
        (start_after_provision env config w).1.credsFile = w.credsFile) := by
  revert h
  unfold start_after_provision
  split
  · intro h
    exact absurd h (by simp)
  · intro h
    simp only [] at h
    cases h
    refine ⟨rfl, rfl, ?_, ?_⟩
    · intro hmode
      have hpr : (config.persist || config.reconnect) = true := by
        rcases hmode with h | h <;> simp [h]
      simp [hpr, credLookup_save_credentials_self]
    · intro hp hr
      simp [hp, hr]

/-- A successful `dev_command` is a `start_after_provision` run on some
resolved configuration; when that configuration is not a reconnect, the
credential store was not touched during resolution. -/
theorem dev_command_running_decompose (args : DevArgs) (env : DevEnv) (w : World)
    (info : RunInfo) :
    (dev_command args env w).2 = .running info →
      ∃ config w1, dev_command args env w = start_after_provision env config w1 ∧
        (config.reconnect = false → w1.credsFile = w.credsFile) := by
  unfold dev_command
  simp only []
  split
  · intro h
    exact absurd h (by simp)
  · split
    · intro h
      exact absurd h (by simp)
    · split
      · -- reconnect argument given
        split
        · intro h
          exact absurd h (by simp)
        · intro h
          exact ⟨_, _, rfl, fun hc => absurd hc (by simp)⟩
      · split
        · -- explicit db name given
          split
          · intro h
            exact absurd h (by simp)
          · split
            · -- credentials already exist for the name
              split
              · intro h
                exact absurd h (by simp)
              · intro h
                exact ⟨_, _, rfl, fun hc => absurd hc (by simp)⟩
            · -- fresh named database
              next heqNone =>
                split
                · intro h
                  exact absurd h (by simp)
                · next w2 heqCreate =>
                  intro h
                  refine ⟨_, _, rfl, fun _ => ?_⟩
                  have hframe := (create_database_frame _ _ _ _ heqCreate).2
                  rw [hframe]
                  exact load_credentials_none_frame _ _ _ heqNone
        · -- generated name
          split
          · intro h
            exact absurd h (by simp)
          · next w1 heqCreate =>
            intro h
            refine ⟨_, _, rfl, fun _ => ?_⟩
            exact (create_database_frame _ _ _ _ heqCreate).2

/-- C3 (confirmed): on every successful session start, a Credential Entry
for the session's database is stored iff the resolved mode is Persistent or
Reconnect; a purely ephemeral start leaves the credential store untouched,
so if no entry existed beforehand, none survives the intentional stop
(`cleanup()`), which never writes the credential store. -/
theorem C3_credentials_iff_mode (args : DevArgs) (env : DevEnv) (w : World)
    (info : RunInfo)
    (hrun : (dev_command args env w).2 = .running info) :
    ((info.persist = true ∨ info.reconnect = true) →
        (credLookup (dev_command args env w).1.credsFile info.db_name).isSome
          = true) ∧
      (info.persist = false → info.reconnect = false →
        (dev_command args env w).1.credsFile = w.credsFile ∧
          (credLookup w.credsFile info.db_name = none →
            credLookup (dev_cleanup info
              (dev_command args env w).1).credsFile info.db_name = none)) := by
  obtain ⟨config, w1, heq, hframe⟩ := dev_command_running_decompose args env w info hrun
  have hrun2 : (start_after_provision env config w1).2 = .running info := by
    rw [← heq]
    exact hrun
  obtain ⟨hp, hr, hpos, hneg⟩ := start_after_provision_running env config w1 info hrun2
  rw [heq]
  constructor
  · intro hmode
    refine hpos ?_
    rcases hmode with h | h
    · exact Or.inl (hp ▸ h)
    · exact Or.inr (hr ▸ h)
  · intro hpf hrf
    have hpc : config.persist = false := hp ▸ hpf
    have hrc : config.reconnect = false := hr ▸ hrf
    have hcf : (start_after_provision env config w1).1.credsFile = w1.credsFile :=
      hneg hpc hrc
    have hw1 : w1.credsFile = w.credsFile := hframe hrc
    refine ⟨hcf.trans hw1, ?_⟩
    intro hnone
    rw [dev_cleanup_credsFile, hcf, hw1]
    exact hnone

/-- Concrete scenario for the C3 witness: a successful persistent start
named `mydb` (fresh database, migrations succeed). -/
def c3Args : DevArgs :=
  { persist := true, db_name := some "mydb", reconnect := none,
    admin_password := none, port := 5173, db_port := 5432, skip_auth := false }

def c3Env : DevEnv :=
  { postgresRunning := true, startPostgresOk := true, portInUse := false,
    createUserOk := true, createDbOk := true, migrationsOk := true,
    createAdminOk := true, confirmReconnect := true, genSuffix := "ab12cd34",
    genDbPassword := "pw", genAdminPassword := "ap", genSecretKey := "sk",
    now := "t0", myPid := 100, childPid := 101 }

def c3World : World :=
  { stateFile := .missing, credsFile := .missing, databases := [], roles := [] }

def c3Info : RunInfo :=
  { db_name := "mydb", persist := true, reconnect := false, db_port := 5432 }

/-- C3 witness: the persistent start stores a Credential Entry for `mydb`. -/
theorem C3_credentials_witness :
    (dev_command c3Args c3Env c3World).2 = .running c3Info ∧
      ((c3Info.persist = true ∨ c3Info.reconnect = true) →
        (credLookup (dev_command c3Args c3Env c3World).1.credsFile
          c3Info.db_name).isSome = true) :=
  ⟨rfl, (C3_credentials_iff_mode c3Args c3Env c3World c3Info rfl).1⟩

/-- Concrete scenario for the C4 witness: a stale ephemeral record. -/
def c4Record : DevState :=
  { version := "1.0", pid := 99999, port := 5173,
    db_name := "comradarr_dev_ab12cd34", db_password := "pw", db_port := 5432,
    secret_key := "sk", admin_password := "ap", persist_mode := false,
    reconnect_mode := false, log_file := none, started_at := "t" }

def c4World : World :=
  { stateFile := save_state c4Record, credsFile := .missing,
    databases := ["comradarr_dev_ab12cd34"], roles := ["comradarr_dev_ab12cd34"] }

def c4Env : StopEnv :=
  { pidAlive := fun _ => false, killOk := true, portPid := none,
    confirmKill := false, confirmRemove := false }

/-- C4 witness: the self-healing behaviour at the concrete stale record. -/
theorem C4_stale_record_witness :
    (load_state c4World.stateFile = some c4Record ∧
      c4Env.pidAlive c4Record.pid = false) ∧
      ((stop_command false false c4Env c4World).killedPids = [] ∧
        (stop_command false false c4Env c4World).world.stateFile = .missing ∧
        (stop_command false false c4Env c4World).exitCode = 0 ∧
        (c4Record.persist_mode = false → c4Record.reconnect_mode = false →
          c4Record.db_name ∉ (stop_command false false c4Env c4World).world.databases)) :=
  ⟨⟨by decide, rfl⟩, C4_stale_record_selfheal false c4Env c4World c4Record (by decide) rfl⟩

/-! ## process_manager.py: background process supervisor

`BackgroundProcessManager.stop_dev_server` and `_stream_output` run in two
threads (the caller and the daemon reader thread) that share
`_cleanup_callback`, `_dev_server_process` and `_stop_event`.  The embedding
is an interleaved labelled transition system: one atomic step per Python
statement that reads or writes the shared state.  `join(timeout=...)` is
nondeterministic — it can return with the reader thread finished
(`stop_join_ok`) or still running (`stop_join_timeout`), exactly as the
2-second bound allows.  The reader's loop exit is modelled as enabled once
the child is dead or the stop event is set (the executions the claims
describe); `cleanupCount`, `termSignals`, `killSignals`, `rInvoked`,
`sInvoked` and `raisedUnhandled` are instrumentation that no guard reads.
The two `with suppress(Exception)` blocks around the callback are modelled
by the invoke steps accepting a `raises` flag and never producing a failed
or raised-through state. -/

/-- Modelled from the spec: `remove_state` from `comradarr_dev.core.state` is
imported by the process manager but that module is not present under the
source tree.  The spec says the stop path, "after the process is confirmed
dead, … then clears session state", and `removeSession()` leaves the store
absent, so its effect is that the session-record file is no longer
present. -/
def tui_remove_state_present (_present : Bool) : Bool := false

/-- Program counter of the reader thread's observable tail
(`_stream_output`): in the read loop; about to poll; poll returned non-None,
about to test the callback; about to call it; called it, about to clear it;
finished. -/
inductive RPC where
  | rReading : RPC
  | rAtPoll : RPC
  | rAtCheck : RPC
  | rAtInvoke : RPC
  | rAtClear : RPC
  | rDone : RPC
deriving Repr, DecidableEq

/-- Program counter of the (single) `stop_dev_server` call: not yet called;
after setting the stop event; after the terminate; after the join; after the
wait; about to call the callback; called it, about to clear it; about to
null the process and remove the state file; returned. -/
inductive SPC where
  | sNotCalled : SPC
  | sAfterEvent : SPC
  | sAfterTerm : SPC
  | sAfterJoin : SPC
  | sAfterWait : SPC
  | sInvoke : SPC
  | sClear : SPC
  | sFinish : SPC
  | sDone : SPC
deriving Repr, DecidableEq

/-- Shared state of the supervisor plus the two thread program counters and
instrumentation counters. -/
structure MgrConfig where
  childAlive : Bool
  hasProc : Bool
  cbPresent : Bool
  stopEvent : Bool
  stateFilePresent : Bool
  termSignals : Nat
  killSignals : Nat
  cleanupCount : Nat
  rInvoked : Bool
  sInvoked : Bool
  raisedUnhandled : Bool
  rpc : RPC
  spc : SPC
deriving Repr, DecidableEq

/-- Atomic interleaving steps: the child exiting, the reader thread's tail,
and the statements of `stop_dev_server`. -/
inductive MgrLabel where
  | child_exits : MgrLabel
  | reader_exit_loop : MgrLabel
  | reader_poll : MgrLabel
  | reader_check_cb : MgrLabel
  | reader_invoke (raises : Bool) : MgrLabel
  | reader_clear : MgrLabel
  | stop_call : MgrLabel
  | stop_terminate : MgrLabel
  | stop_join_ok : MgrLabel
  | stop_join_timeout : MgrLabel
  | stop_wait_done : MgrLabel
  | stop_wait_kill : MgrLabel
  | stop_check_cb : MgrLabel
  | stop_invoke (raises : Bool) : MgrLabel
  | stop_clear : MgrLabel
  | stop_finish : MgrLabel
deriving Repr, DecidableEq

/-- One guarded atomic step (`none` = the step is not enabled). -/
def mgrStep (c : MgrConfig) : MgrLabel → Option MgrConfig
  | .child_exits =>
    if c.childAlive = true then some { c with childAlive := false } else none
  | .reader_exit_loop =>
    if c.rpc = .rReading ∧ (c.childAlive = false ∨ c.stopEvent = true) then
      some { c with rpc := .rAtPoll }
    else none
  | .reader_poll =>
    if c.rpc = .rAtPoll then
      if c.hasProc = false then some { c with rpc := .rDone }
      else if c.childAlive = true then some { c with rpc := .rDone }
      else some { c with rpc := .rAtCheck }
    else none
  | .reader_check_cb =>
    if c.rpc = .rAtCheck then
      if c.cbPresent = true then some { c with rpc := .rAtInvoke }
      else some { c with rpc := .rDone }
    else none
  | .reader_invoke _raises =>
    if c.rpc = .rAtInvoke then
      some { c with rpc := .rAtClear, cleanupCount := c.cleanupCount + 1,
                    rInvoked := true }
    else none
  | .reader_clear =>
    if c.rpc = .rAtClear then some { c with rpc := .rDone, cbPresent := false }
    else none
  | .stop_call =>
    if c.spc = .sNotCalled then some { c with spc := .sAfterEvent, stopEvent := true }
    else none
  | .stop_terminate =>
    if c.spc = .sAfterEvent then
      if c.hasProc = true ∧ c.childAlive = true then
        some { c with spc := .sAfterTerm, termSignals := c.termSignals + 1 }
      else some { c with spc := .sAfterTerm }
    else none
  | .stop_join_ok =>
    if c.spc = .sAfterTerm ∧ c.rpc = .rDone then some { c with spc := .sAfterJoin }
    else none
  | .stop_join_timeout =>
    if c.spc = .sAfterTerm ∧ ¬c.rpc = .rDone then some { c with spc := .sAfterJoin }
    else none
  | .stop_wait_done =>
    if c.spc = .sAfterJoin ∧ (c.hasProc = false ∨ c.childAlive = false) then
      some { c with spc := .sAfterWait }
    else none
  | .stop_wait_kill =>
    if c.spc = .sAfterJoin ∧ c.hasProc = true ∧ c.childAlive = true then
      some { c with spc := .sAfterWait, childAlive := false,
                    killSignals := c.killSignals + 1 }
    else none
  | .stop_check_cb =>
    if c.spc = .sAfterWait then
      if c.cbPresent = true then some { c with spc := .sInvoke }
      else some { c with spc := .sFinish }
    else none
  | .stop_invoke _raises =>
    if c.spc = .sInvoke then
      some { c with spc := .sClear, cleanupCount := c.cleanupCount + 1,
                    sInvoked := true }
    else none
  | .stop_clear =>
    if c.spc = .sClear then some { c with spc := .sFinish, cbPresent := false }
    else none
  | .stop_finish =>
    if c.spc = .sFinish then
      some { c with spc := .sDone, hasProc := false,
                    stateFilePresent := tui_remove_state_present c.stateFilePresent }
    else none

/-- Run a sequence of steps; fails if one is not enabled. -/
def mgrRun : MgrConfig → List MgrLabel → Option MgrConfig
  | c, [] => some c
  | c, l :: ls =>
    match mgrStep c l with
    | none => none
    | some c' => mgrRun c' ls

/-- Manager state right after a successful `start_dev_server` with a
registered cleanup callback: child running, reader in its loop, stop not yet
requested. -/
def mgrStarted : MgrConfig :=
  { childAlive := true, hasProc := true, cbPresent := true, stopEvent := false,
    stateFilePresent := true, termSignals := 0, killSignals := 0,
    cleanupCount := 0, rInvoked := false, sInvoked := false,
    raisedUnhandled := false, rpc := .rReading, spc := .sNotCalled }

/-- Inductive invariant of every interleaving from `mgrStarted`. -/
def MgrInv (c : MgrConfig) : Prop :=
  (c.rInvoked = true → c.rpc = .rAtClear ∨ c.rpc = .rDone) ∧
  (c.sInvoked = true → c.spc = .sClear ∨ c.spc = .sFinish ∨ c.spc = .sDone) ∧
  c.cleanupCount = ((if c.rInvoked then 1 else 0) + (if c.sInvoked then 1 else 0)) ∧
  c.raisedUnhandled = false ∧
  (c.stopEvent = false ↔ c.spc = .sNotCalled) ∧
  (c.rpc = .rAtPoll → c.childAlive = false ∨ c.stopEvent = true) ∧
  (c.rpc = .rDone → c.rInvoked = true ∨ c.stopEvent = true) ∧
  (c.cbPresent = false → c.rInvoked = true ∨ c.sInvoked = true) ∧
  (c.rInvoked = true → c.rpc = .rDone → c.cbPresent = false) ∧
  ((c.spc = .sFinish ∨ c.spc = .sDone) → c.rInvoked = true ∨ c.sInvoked = true) ∧
  (c.spc = .sClear → c.sInvoked = true) ∧
  (c.hasProc = false → c.spc = .sDone) ∧
  ((c.rpc = .rAtCheck ∨ c.rpc = .rAtInvoke ∨ c.rpc = .rAtClear) → c.childAlive = false) ∧
  (c.rInvoked = true → c.childAlive = false) ∧
  ((c.spc = .sAfterWait ∨ c.spc = .sInvoke ∨ c.spc = .sClear ∨ c.spc = .sFinish ∨
      c.spc = .sDone) → c.childAlive = false) ∧
  (c.rpc = .rAtClear → c.rInvoked = true)

/-- Additional invariant of interleavings that contain no join timeout: the
reader thread is finished before any post-join statement of
`stop_dev_server` runs, so the two callback sites are serialized. -/
def MgrInvJ (c : MgrConfig) : Prop :=
  MgrInv c ∧
  ((c.spc = .sAfterJoin ∨ c.spc = .sAfterWait ∨ c.spc = .sInvoke ∨
      c.spc = .sClear ∨ c.spc = .sFinish ∨ c.spc = .sDone) → c.rpc = .rDone) ∧
  (c.spc = .sInvoke → c.rInvoked = false) ∧
  (c.sInvoked = true → c.rInvoked = false)

/-- Both threads finished (or stop never called). -/
def MgrTerminal (c : MgrConfig) : Prop :=
  c.rpc = .rDone ∧ (c.spc = .sDone ∨ c.spc = .sNotCalled)

theorem mgrStep_preserves_inv (c c' : MgrConfig) (l : MgrLabel)
    (hinv : MgrInv c) (h : mgrStep c l = some c') : MgrInv c' := by
  obtain ⟨ca, hp, cb, se, sf, ts, ks, cc, ri, si, ru, rpc, spc⟩ := c
  unfold MgrInv at hinv ⊢
  simp only [] at hinv ⊢
  obtain ⟨h1, h2, h3, h4, h5, h6, h7, h8, h9, h10, h11, h12, h13, h14, h15, h16⟩ := hinv
  cases l <;> simp only [mgrStep, tui_remove_state_present] at h <;>
    (try split at h) <;> (try split at h) <;> (try split at h)
  all_goals
    first
      | exact Option.noConfusion h
      | (obtain rfl := Option.some.inj h
         cases ri <;> cases si <;> simp_all <;>
           first
             | omega
             | (cases se <;> simp_all))

theorem mgrStep_preserves_invJ (c c' : MgrConfig) (l : MgrLabel)
    (hinv : MgrInvJ c) (hl : ¬l = MgrLabel.stop_join_timeout)
    (h : mgrStep c l = some c') : MgrInvJ c' := by
  have hbase : MgrInv c' := mgrStep_preserves_inv c c' l hinv.1 h
  refine ⟨hbase, ?_⟩
  clear hbase
  obtain ⟨hb, hJ1, hJ3, hJ2⟩ := hinv
  obtain ⟨ca, hp, cb, se, sf, ts, ks, cc, ri, si, ru, rpc, spc⟩ := c
  unfold MgrInv at hb
  simp only [] at hb hJ1 hJ3 hJ2
  obtain ⟨h1, h2, h3, h4, h5, h6, h7, h8, h9, h10, h11, h12, h13, h14, h15, h16⟩ := hb
  cases l
  case child_exits =>
    simp only [mgrStep] at h
    split at h
    · obtain rfl := Option.some.inj h
      exact ⟨hJ1, hJ3, hJ2⟩
    · exact Option.noConfusion h
  case reader_exit_loop =>
    simp only [mgrStep] at h
    split at h
    · next hg =>
      obtain rfl := Option.some.inj h
      exact ⟨fun hs => absurd (hg.1.symm.trans (hJ1 hs)) (by decide), hJ3, hJ2⟩
    · exact Option.noConfusion h
  case reader_poll =>
    simp only [mgrStep] at h
    split at h
    · next hg =>
      split at h
      · obtain rfl := Option.some.inj h
        exact ⟨fun _ => rfl, hJ3, hJ2⟩
      · split at h
        · obtain rfl := Option.some.inj h
          exact ⟨fun _ => rfl, hJ3, hJ2⟩
        · obtain rfl := Option.some.inj h
          exact ⟨fun hs => absurd (hg.symm.trans (hJ1 hs)) (by decide), hJ3, hJ2⟩
    · exact Option.noConfusion h
  case reader_check_cb =>
    simp only [mgrStep] at h
    split at h
    · next hg =>
      split at h
      · obtain rfl := Option.some.inj h
        exact ⟨fun hs => absurd (hg.symm.trans (hJ1 hs)) (by decide), hJ3, hJ2⟩
      · obtain rfl := Option.some.inj h
        exact ⟨fun _ => rfl, hJ3, hJ2⟩
    · exact Option.noConfusion h
  case reader_invoke raises =>
    simp only [mgrStep] at h
    split at h
    · next hg =>
      obtain rfl := Option.some.inj h
      refine ⟨fun hs => absurd (hg.symm.trans (hJ1 hs)) (by decide),
        fun hs => absurd (hg.symm.trans (hJ1 (Or.inr (Or.inr (Or.inl hs)))))
          (by decide),
        fun hsi => ?_⟩
      rcases h2 hsi with h' | h' | h'
      · exact absurd (hg.symm.trans (hJ1 (Or.inr (Or.inr (Or.inr (Or.inl h'))))))
          (by decide)
      · exact absurd
          (hg.symm.trans (hJ1 (Or.inr (Or.inr (Or.inr (Or.inr (Or.inl h')))))))
          (by decide)
      · exact absurd
          (hg.symm.trans (hJ1 (Or.inr (Or.inr (Or.inr (Or.inr (Or.inr h')))))))
          (by decide)
    · exact Option.noConfusion h
  case reader_clear =>
    simp only [mgrStep] at h
    split at h
    · next hg =>
      obtain rfl := Option.some.inj h
      exact ⟨fun _ => rfl,
        fun hs => absurd (hg.symm.trans (hJ1 (Or.inr (Or.inr (Or.inl hs)))))
          (by decide),
        hJ2⟩
    · exact Option.noConfusion h
  case stop_call =>
    simp only [mgrStep] at h
    split at h
    · obtain rfl := Option.some.inj h
      exact ⟨fun hs => by simp at hs, fun hs => by simp at hs, hJ2⟩
    · exact Option.noConfusion h
  case stop_terminate =>
    simp only [mgrStep] at h
    split at h
    · split at h
      · obtain rfl := Option.some.inj h
        exact ⟨fun hs => by simp at hs, fun hs => by simp at hs, hJ2⟩
      · obtain rfl := Option.some.inj h
        exact ⟨fun hs => by simp at hs, fun hs => by simp at hs, hJ2⟩
    · exact Option.noConfusion h
  case stop_join_ok =>
    simp only [mgrStep] at h
    split at h
    · next hg =>
      obtain rfl := Option.some.inj h
      exact ⟨fun _ => hg.2, fun hs => by simp at hs, hJ2⟩
    · exact Option.noConfusion h
  case stop_join_timeout =>
    exact absurd rfl hl
  case stop_wait_done =>
    simp only [mgrStep] at h
    split at h
    · next hg =>
      obtain rfl := Option.some.inj h
      exact ⟨fun _ => hJ1 (Or.inl hg.1), fun hs => by simp at hs, hJ2⟩
    · exact Option.noConfusion h
  case stop_wait_kill =>
    simp only [mgrStep] at h
    split at h
    · next hg =>
      obtain rfl := Option.some.inj h
      exact ⟨fun _ => hJ1 (Or.inl hg.1), fun hs => by simp at hs, hJ2⟩
    · exact Option.noConfusion h
  case stop_check_cb =>
    simp only [mgrStep] at h
    split at h
    · next hg =>
      split at h
      · next hcb =>
        obtain rfl := Option.some.inj h
        refine ⟨fun _ => hJ1 (Or.inr (Or.inl hg)), fun _ => ?_, hJ2⟩
        cases hri : ri with
        | false => rfl
        | true =>
          have hcbf := h9 hri (hJ1 (Or.inr (Or.inl hg)))
          rw [hcb] at hcbf
          exact absurd hcbf (by decide)
      · obtain rfl := Option.some.inj h
        exact ⟨fun _ => hJ1 (Or.inr (Or.inl hg)), fun hs => by simp at hs, hJ2⟩
    · exact Option.noConfusion h
  case stop_invoke raises =>
    simp only [mgrStep] at h
    split at h
    · next hg =>
      obtain rfl := Option.some.inj h
      exact ⟨fun _ => hJ1 (Or.inr (Or.inr (Or.inl hg))), fun hs => by simp at hs,
        fun _ => hJ3 hg⟩
    · exact Option.noConfusion h
  case stop_clear =>
    simp only [mgrStep] at h
    split at h
    · next hg =>
      obtain rfl := Option.some.inj h
      exact ⟨fun _ => hJ1 (Or.inr (Or.inr (Or.inr (Or.inl hg)))),
        fun hs => by simp at hs, hJ2⟩
    · exact Option.noConfusion h
  case stop_finish =>
    simp only [mgrStep] at h
    split at h
    · next hg =>
      obtain rfl := Option.some.inj h
      exact ⟨fun _ => hJ1 (Or.inr (Or.inr (Or.inr (Or.inr (Or.inl hg))))),
        fun hs => by simp at hs, hJ2⟩
    · exact Option.noConfusion h

theorem mgrRun_inv (ls : List MgrLabel) :
    ∀ c c', MgrInv c → mgrRun c ls = some c' → MgrInv c' := by
  induction ls with
  | nil =>
    intro c c' hc h
    obtain rfl := Option.some.inj h
    exact hc
  | cons l ls ih =>
    intro c c' hc h
    simp only [mgrRun] at h
    cases hstep : mgrStep c l with
    | none => rw [hstep] at h; exact Option.noConfusion h
    | some c1 =>
      rw [hstep] at h
      exact ih c1 c' (mgrStep_preserves_inv c c1 l hc hstep) h

theorem mgrRun_invJ (ls : List MgrLabel) :
    ∀ c c', MgrInvJ c → MgrLabel.stop_join_timeout ∉ ls →
      mgrRun c ls = some c' → MgrInvJ c' := by
  induction ls with
  | nil =>
    intro c c' hc _ h
    obtain rfl := Option.some.inj h
    exact hc
  | cons l ls ih =>
    intro c c' hc hnot h
    have hl : ¬l = MgrLabel.stop_join_timeout := by
      intro he
      exact hnot (by rw [← he]; exact List.mem_cons_self l ls)
    have hnot' : MgrLabel.stop_join_timeout ∉ ls :=
      fun hm => hnot (List.mem_cons_of_mem l hm)
    simp only [mgrRun] at h
    cases hstep : mgrStep c l with
    | none => rw [hstep] at h; exact Option.noConfusion h
    | some c1 =>
      rw [hstep] at h
      exact ih c1 c' (mgrStep_preserves_invJ c c1 l hc hl hstep) hnot' h

theorem mgrStartedInv : MgrInv mgrStarted := by
  unfold MgrInv mgrStarted
  simp

theorem mgrStartedInvJ : MgrInvJ mgrStarted := by
  unfold MgrInvJ MgrInv mgrStarted
  simp

/-! ## Claims C1, C9 -/

/-- C1 (amended): along every interleaving from a started supervisor with a
registered cleanup callback, the callback runs at most twice and a raising
callback is always suppressed (never propagated); in every complete
execution — both thread program counters finished, which entails the child
died — the callback runs at least once, and exactly once when the
interleaving contains no join timeout.  When stop's bounded join of the
reader thread times out while the reader sits between its callback check
and the clearing assignment, both sites can invoke the callback, so
"exactly once" fails in general (see the counterexample). -/
theorem C1_cleanup_amended (ls : List MgrLabel) (c : MgrConfig)
    (h : mgrRun mgrStarted ls = some c) :
    (c.cleanupCount ≤ 2 ∧ c.raisedUnhandled = false) ∧
      (MgrTerminal c → 1 ≤ c.cleanupCount ∧ c.childAlive = false) ∧
      (MgrLabel.stop_join_timeout ∉ ls → MgrTerminal c →
        c.cleanupCount = 1 ∧ c.childAlive = false) := by
  have hb : MgrInv c := mgrRun_inv ls mgrStarted c mgrStartedInv h
  obtain ⟨h1, h2, h3, h4, h5, h6, h7, h8, h9, h10, h11, h12, h13, h14, h15, h16⟩ := hb
  refine ⟨⟨?_, h4⟩, ?_, ?_⟩
  · rw [h3]
    cases c.rInvoked <;> cases c.sInvoked <;> simp
  · rintro ⟨hrpc, hspc⟩
    rcases hspc with hspc | hspc
    · refine ⟨?_, h15 (Or.inr (Or.inr (Or.inr (Or.inr hspc))))⟩
      rw [h3]
      rcases h10 (Or.inr hspc) with hx | hx <;> rw [hx] <;> simp
    · have hse : c.stopEvent = false := h5.mpr hspc
      have hri : c.rInvoked = true := by
        rcases h7 hrpc with hri | hse'
        · exact hri
        · rw [hse] at hse'
          exact absurd hse' (by simp)
      refine ⟨?_, h14 hri⟩
      rw [h3, hri]
      simp
  · intro hnot hterm
    obtain ⟨-, hJ1, hJ3, hJ2⟩ := mgrRun_invJ ls mgrStarted c mgrStartedInvJ hnot h
    obtain ⟨hrpc, hspc⟩ := hterm
    rcases hspc with hspc | hspc
    · refine ⟨?_, h15 (Or.inr (Or.inr (Or.inr (Or.inr hspc))))⟩
      cases hsi : c.sInvoked
      · rcases h10 (Or.inr hspc) with hri | hri
        · rw [h3, hri, hsi]
          decide
        · rw [hsi] at hri
          exact absurd hri (by simp)
      · have hrif : c.rInvoked = false := hJ2 hsi
        rw [h3, hrif, hsi]
        decide
    · have hse : c.stopEvent = false := h5.mpr hspc
      have hri : c.rInvoked = true := by
        rcases h7 hrpc with hri | hse'
        · exact hri
        · rw [hse] at hse'
          exact absurd hse' (by simp)
      have hsi : c.sInvoked = false := by
        cases hsi : c.sInvoked
        · rfl
        · rcases h2 hsi with h' | h' | h' <;> rw [hspc] at h' <;>
            exact absurd h' (by simp)
      exact ⟨by rw [h3, hri, hsi]; decide, h14 hri⟩

/-- Sequential execution for the C1 witness: the child exits on its own, the
reader observes it and runs the cleanup exactly once. -/
def c1SeqTrace : List MgrLabel :=
  [.child_exits, .reader_exit_loop, .reader_poll, .reader_check_cb,
   .reader_invoke false, .reader_clear]

def c1SeqFinal : MgrConfig :=
  { childAlive := false, hasProc := true, cbPresent := false, stopEvent := false,
    stateFilePresent := true, termSignals := 0, killSignals := 0,
    cleanupCount := 1, rInvoked := true, sInvoked := false,
    raisedUnhandled := false, rpc := .rDone, spc := .sNotCalled }

/-- C1 witness: the amended conclusions at a concrete complete timeout-free
execution. -/
theorem C1_cleanup_witness :
    mgrRun mgrStarted c1SeqTrace = some c1SeqFinal ∧
      ((c1SeqFinal.cleanupCount ≤ 2 ∧ c1SeqFinal.raisedUnhandled = false) ∧
        (MgrTerminal c1SeqFinal →
          1 ≤ c1SeqFinal.cleanupCount ∧ c1SeqFinal.childAlive = false) ∧
        (MgrLabel.stop_join_timeout ∉ c1SeqTrace → MgrTerminal c1SeqFinal →
          c1SeqFinal.cleanupCount = 1 ∧ c1SeqFinal.childAlive = false)) :=
  ⟨by decide, C1_cleanup_amended c1SeqTrace c1SeqFinal (by decide)⟩

/-- Interleaving refuting the original C1: the child exits on its own; the
reader passes its callback check; `stop_dev_server` is called concurrently,
its 2-second join times out (the reader has not finished), the child is
already dead, the callback is still registered, so stop invokes it — and
then the reader's pending invocation runs as well.  Both invocations
complete, the execution is complete, the child is dead, and the cleanup
callback ran twice, not exactly once. -/
def c1DoubleTrace : List MgrLabel :=
  [.child_exits, .reader_exit_loop, .reader_poll, .reader_check_cb,
   .stop_call, .stop_terminate, .stop_join_timeout, .stop_wait_done,
   .stop_check_cb, .stop_invoke false, .stop_clear, .stop_finish,
   .reader_invoke false, .reader_clear]

/-- C1 counterexample: a complete execution in which the supervised child
died and the registered cleanup callback was invoked twice. -/
theorem C1_cleanup_counterexample :
    (mgrRun mgrStarted c1DoubleTrace).map
        (fun c => (c.cleanupCount, c.childAlive, c.rpc, c.spc)) =
      some (2, false, RPC.rDone, SPC.sDone) := by
  decide

/-- An Idle supervisor: no live child owned (`dev_server_running` false —
never started, already stopped, or exited with its cleanup already run), no
registered callback pending, no reader activity, stop not yet called. -/
def MgrIdle (c : MgrConfig) : Prop :=
  (c.hasProc = false ∨ c.childAlive = false) ∧ c.cbPresent = false ∧
    c.rpc = .rDone ∧ c.spc = .sNotCalled

/-- The straight-line execution of `stop_dev_server` on an Idle manager (no
reader thread to interleave with). -/
def idleStopTrace : List MgrLabel :=
  [.stop_call, .stop_terminate, .stop_join_ok, .stop_wait_done,
   .stop_check_cb, .stop_finish]

/-- C9 (amended): `stop_dev_server` on an Idle supervisor returns without
error, sends no termination or kill signal, invokes no cleanup callback —
but it is not a complete no-op: it sets the internal stop event and
unconditionally calls `remove_state()`, deleting the persisted
session-record file. -/
theorem C9_idle_stop_amended (c : MgrConfig) (hidle : MgrIdle c) :
    mgrRun c idleStopTrace =
      some { c with stopEvent := true, hasProc := false,
                    stateFilePresent := false, spc := .sDone } := by
  obtain ⟨hpc, hcb, hrpc, hspc⟩ := hidle
  obtain ⟨ca, hp, cb, se, sf, ts, ks, cc, ri, si, ru, rpc, spc⟩ := c
  simp only [] at hpc hcb hrpc hspc ⊢
  subst hcb hrpc hspc
  rcases hpc with hpc | hpc <;> subst hpc <;>
    simp [mgrRun, mgrStep, idleStopTrace, tui_remove_state_present]

/-- Concrete Idle manager for the C9 witness. -/
def c9IdleW : MgrConfig :=
  { childAlive := false, hasProc := true, cbPresent := false, stopEvent := false,
    stateFilePresent := true, termSignals := 0, killSignals := 0,
    cleanupCount := 0, rInvoked := false, sInvoked := false,
    raisedUnhandled := false, rpc := .rDone, spc := .sNotCalled }

/-- C9 witness: the amended behaviour at a concrete Idle manager whose
previous child already exited. -/
theorem C9_idle_stop_witness :
    MgrIdle c9IdleW ∧
      mgrRun c9IdleW idleStopTrace =
        some { c9IdleW with stopEvent := true, hasProc := false,
                            stateFilePresent := false, spc := .sDone } :=
  ⟨⟨Or.inr rfl, rfl, rfl, rfl⟩, C9_idle_stop_amended c9IdleW ⟨Or.inr rfl, rfl, rfl, rfl⟩⟩

/-- Fresh (never-started) manager with a session-record file present. -/
def c9CounterIdle : MgrConfig :=
  { childAlive := false, hasProc := false, cbPresent := false, stopEvent := false,
    stateFilePresent := true, termSignals := 0, killSignals := 0,
    cleanupCount := 0, rInvoked := false, sInvoked := false,
    raisedUnhandled := false, rpc := .rDone, spc := .sNotCalled }

/-- C9 counterexample: calling stop on an Idle supervisor does NOT leave all
observable state unchanged — the persisted session-record file, present
before the call, is removed by the unconditional `remove_state()` at the end
of `stop_dev_server`. -/
theorem C9_idle_stop_counterexample :
    c9CounterIdle.stateFilePresent = true ∧
      (mgrRun c9CounterIdle idleStopTrace).map
          (fun c => c.stateFilePresent) = some false := by
  decide

/-- C10 (confirmed): `save_credentials` and `remove_credentials` for a name X
leave the stored entry of every other name unchanged. -/
theorem C10_frame (f : FileContent) (x y : String) (e : SavedCredentials)
    (h : y ≠ x) :
    credLookup (save_credentials f x e) y = credLookup f y ∧
      credLookup (remove_credentials f x) y = credLookup f y :=
  ⟨credLookup_save_credentials_ne f x y e h,
   credLookup_remove_credentials_ne f x y h⟩

/-- Concrete credential entries and store for the C10 witness. -/
def c10EntryOther : SavedCredentials :=
  { password := "o", secret_key := "os", admin_password := "oa",
    saved_at := "t0", last_used := none }

def c10EntryMydb : SavedCredentials :=
  { password := "m", secret_key := "ms", admin_password := "ma",
    saved_at := "t0", last_used := none }

def c10EntryMydb2 : SavedCredentials :=
  { password := "m2", secret_key := "ms2", admin_password := "ma2",
    saved_at := "t1", last_used := none }

def c10Store : FileContent :=
  save_credentials (save_credentials .missing "other" c10EntryOther) "mydb" c10EntryMydb

/-- C10 witness: the frame property at a concrete two-entry store. -/
theorem C10_frame_witness :
    ("other" : String) ≠ "mydb" ∧
      (credLookup (save_credentials c10Store "mydb" c10EntryMydb2) "other" =
          credLookup c10Store "other" ∧
        credLookup (remove_credentials c10Store "mydb") "other" =
          credLookup c10Store "other") :=
  ⟨by decide, C10_frame c10Store "mydb" "other" c10EntryMydb2 (by decide)⟩

end Comradarr
